import Mathlib

/-!
Verification of the multisieve coreference resolution engine
(`multisieve_coreference`) against its natural-language specification.

The development shallowly embeds the data model and the operations of
`entity.py`, `entities.py`, `filters.py`, `constraints.py`,
`sieve_runner.py` and the sieve functions of `resolve_coreference.py`.
Python objects become Lean structures; mutable state becomes explicit
state passing; fallible code returns `Except`; Python `set`s of
hashable values become deduplicated lists compared by membership.
-/

namespace Coref

/-- Error class raised by the embedded Python code: `ValueError`,
`AttributeError` and `TypeError` are the only ones the modelled
operations can raise. -/
inductive PyErr where
  | valueError
  | attributeError
  | typeError
deriving DecidableEq, Repr

/-- Value universe for `getattr` on a `Mention`.  Every attribute that
`Mention.__init__` (mentions.py lines 194-275) assigns holds either
`None`, a string, an int, a bool, a tuple of offsets, or a tuple of
offset-tuples; one constructor per case. -/
inductive AttrVal where
  | anone
  | astr (s : String)
  | aint (n : Int)
  | abool (b : Bool)
  | aints (xs : List Nat)
  | aspans (xs : List (List Nat))
deriving DecidableEq, Repr

/-- One mention (mentions.py, class `Mention`).  Field defaults mirror
the constructor defaults.  Mention ids are modelled as naturals (the
source uses strings `m0`, `m1`, ...; only decidable equality of ids is
ever used).  `head_offset`, `begin_offset`, `end_offset` and
`sentence_number` default to `None` resp. `()` in the source but are
always set by `Mention.from_naf` before any sieve reads them, so they
are modelled as plain numbers. -/
structure Mention where
  id : Nat
  span : List Nat := []
  relaxed_span : List Nat := []
  full_head : List Nat := []
  head_offset : Nat := 0
  begin_offset : Nat := 0
  end_offset : Nat := 0
  head_pos : Option String := none
  number : Option String := none
  gender : Option String := none
  person : Option String := none
  entity_type : Option String := none
  is_relative_pronoun : Bool := false
  is_reflexive_pronoun : Bool := false
  coreference_prohibited : List Nat := []
  modifiers : List (List Nat) := []
  appositives : List (List Nat) := []
  predicatives : List (List Nat) := []
  non_stopwords : List Nat := []
  main_modifiers : List Nat := []
  sentence_number : Int := 0
deriving DecidableEq, Repr

/-- Helper encoding an optional string attribute as an `AttrVal`. -/
def optStrVal : Option String → AttrVal
  | none => .anone
  | some s => .astr s

/-- Python `getattr(m, attr)` combined with `hasattr(m, attr)`:
`some v` when `attr` is one of the attributes `Mention.__init__`
assigns (the value may be `None`, encoded `AttrVal.anone`), and `none`
for any other name (`hasattr` is false, `getattr` would raise). -/
def Mention.pyattr (m : Mention) : String → Option AttrVal
  | "id" => some (.aint m.id)
  | "span" => some (.aints m.span)
  | "relaxed_span" => some (.aints m.relaxed_span)
  | "full_head" => some (.aints m.full_head)
  | "head_offset" => some (.aint m.head_offset)
  | "begin_offset" => some (.aint m.begin_offset)
  | "end_offset" => some (.aint m.end_offset)
  | "head_pos" => some (optStrVal m.head_pos)
  | "number" => some (optStrVal m.number)
  | "gender" => some (optStrVal m.gender)
  | "person" => some (optStrVal m.person)
  | "entity_type" => some (optStrVal m.entity_type)
  | "is_relative_pronoun" => some (.abool m.is_relative_pronoun)
  | "is_reflexive_pronoun" => some (.abool m.is_reflexive_pronoun)
  | "coreference_prohibited" => some (.aints m.coreference_prohibited)
  | "modifiers" => some (.aspans m.modifiers)
  | "appositives" => some (.aspans m.appositives)
  | "predicatives" => some (.aspans m.predicatives)
  | "non_stopwords" => some (.aints m.non_stopwords)
  | "main_modifiers" => some (.aints m.main_modifiers)
  | "sentence_number" => some (.aint m.sentence_number)
  | _ => none

/-- An entity is its list of member mentions (entity.py: `Entity`
stores `self.mentions`, a list).  Object identity of `Entity` objects
is handled by the `Entities` arena below. -/
abbrev Entity := List Mention

/-- entity.py lines 51-70, `Entity.non_unique_mention_attr`: the list
`[getattr(m, attr) for m in self if hasattr(m, attr)]`, raising
`AttributeError` when it is empty.  Note that only mentions *lacking*
the attribute are skipped; a present attribute whose value is `None`
contributes `AttrVal.anone` to the result. -/
def Entity.non_unique_mention_attr (e : Entity) (attr : String) :
    Except PyErr (List AttrVal) :=
  let all_answers := e.filterMap (fun m => m.pyattr attr)
  if all_answers.isEmpty then .error .attributeError else .ok all_answers

/-- entity.py lines 72-84, `Entity.mention_attr`: the set of the values
returned by `non_unique_mention_attr` (a Python `set`, modelled as a
deduplicated list; all uses are order-independent). -/
def Entity.mention_attr (e : Entity) (attr : String) :
    Except PyErr (List AttrVal) :=
  (Entity.non_unique_mention_attr e attr).map List.dedup

/-- Python iteration over an attribute value, for `flat_mention_attr`:
tuples yield their elements, strings yield their characters, and
`None`/ints/bools are not iterable (`TypeError`). -/
def AttrVal.elems : AttrVal → Except PyErr (List AttrVal)
  | .aints xs => .ok (xs.map (fun n => .aint n))
  | .aspans xs => .ok (xs.map (fun s => .aints s))
  | .astr s => .ok (s.toList.map (fun c => .astr (String.singleton c)))
  | _ => .error .typeError

/-- Helper for `flat_mention_attr`: concatenate the elements of every
value, propagating a `TypeError` from a non-iterable value. -/
def flattenVals : List AttrVal → Except PyErr (List AttrVal)
  | [] => .ok []
  | v :: vs => do
      let first ← v.elems
      let rest ← flattenVals vs
      .ok (first ++ rest)

/-- entity.py lines 86-104, `Entity.flat_mention_attr`: the union of
the elements of the values returned by `non_unique_mention_attr`. -/
def Entity.flat_mention_attr (e : Entity) (attr : String) :
    Except PyErr (List AttrVal) := do
  let answers ← Entity.non_unique_mention_attr e attr
  let flat ← flattenVals answers
  .ok flat.dedup

/-- Specialisation of `Entity.mention_attr` at the always-present
attribute `id`: the set of member mention ids
(`entity.mention_attr('id')`). -/
def idSet (e : Entity) : List Nat := (e.map (fun m => m.id)).dedup

/-- Specialisation of `Entity.flat_mention_attr` at `span`: the set of
all offsets covered by the entity's mentions. -/
def flatSpan (e : Entity) : List Nat := (e.flatMap (fun m => m.span)).dedup

/-- Specialisation of `Entity.mention_attr` at `head_pos`; the set may
contain `none` (a mention whose `head_pos` is `None`). -/
def headPosSet (e : Entity) : List (Option String) :=
  (e.map (fun m => m.head_pos)).dedup

/-- Specialisation of `Entity.mention_attr` at `person`. -/
def personSet (e : Entity) : List (Option String) :=
  (e.map (fun m => m.person)).dedup

/-- Specialisation of `Entity.mention_attr` at `number`. -/
def numberSet (e : Entity) : List (Option String) :=
  (e.map (fun m => m.number)).dedup

/-- Specialisation of `Entity.mention_attr` at `gender`. -/
def genderSet (e : Entity) : List (Option String) :=
  (e.map (fun m => m.gender)).dedup

/-- Specialisation of `Entity.mention_attr` at `entity_type`. -/
def entityTypeSet (e : Entity) : List (Option String) :=
  (e.map (fun m => m.entity_type)).dedup

/-- Specialisation of `Entity.mention_attr` at `span`: the set of span
tuples of the member mentions. -/
def spanSet (e : Entity) : List (List Nat) :=
  (e.map (fun m => m.span)).dedup

/-- Specialisation of `Entity.mention_attr` at `sentence_number`. -/
def sentSet (e : Entity) : List Int :=
  (e.map (fun m => m.sentence_number)).dedup

/-- Specialisation of `Entity.flat_mention_attr` at `modifiers`: the
set of modifier spans of the member mentions. -/
def modifiersFlat (e : Entity) : List (List Nat) :=
  (e.flatMap (fun m => m.modifiers)).dedup

/-- Specialisation of `Entity.flat_mention_attr` at `appositives`. -/
def appositivesFlat (e : Entity) : List (List Nat) :=
  (e.flatMap (fun m => m.appositives)).dedup

/-- Specialisation of `Entity.flat_mention_attr` at `predicatives`. -/
def predicativesFlat (e : Entity) : List (List Nat) :=
  (e.flatMap (fun m => m.predicatives)).dedup

/-!
## The `Entities` collection (entities.py)

Python `Entity` objects are mutable and compared by object identity
(`_get_entity_key(entity)` is `id(entity)`).  The embedding uses an
arena: `objects` maps an object id (its index) to the object's current
mention list; objects are never deleted from the arena, mirroring the
fact that a discarded Python object still exists while referenced.
`position` is `_all_entities`: the slot list recording collection
order, with `none` for a tombstoned slot; an entry `some o` refers to
arena object `o`.  `disjoint` is `disjoint_mentions`: a set of
unordered mention-id pairs (Python `frozenset`s of size two), modelled
as a list queried symmetrically.
-/

/-- State of an `Entities` collection (entities.py, class
`Entities`). -/
structure Entities where
  objects : List Entity
  position : List (Option Nat)
  disjoint : List (Nat × Nat)
deriving DecidableEq, Repr

/-- Current mention list of arena object `o` (dereferencing an Entity
object). -/
def Entities.obj (st : Entities) (o : Nat) : Entity :=
  (st.objects.get? o).getD []

/-- entities.py lines 68-69, `Entities.__contains__`: the object is a
member iff its key is in `_contained_entities`, i.e. iff some live slot
holds it. -/
def Entities.containsObj (st : Entities) (o : Nat) : Bool :=
  st.position.contains (some o)

/-- Membership of the unordered pair `{x, y}` in the disjointness set
(`frozenset((x, y)) in self.disjoint_mentions`). -/
def pairMem (d : List (Nat × Nat)) (x y : Nat) : Bool :=
  d.any (fun p => (p.1 == x && p.2 == y) || (p.1 == y && p.2 == x))

/-- The cross pairs `(mention id from a, mention id from b)` that
entities.py lines 183-187 add to `disjoint_mentions`. -/
def crossPairs (a b : Entity) : List (Nat × Nat) :=
  (idSet a).flatMap (fun x => (idSet b).map (fun y => (x, y)))

/-- entities.py lines 161-187, `Entities.mark_disjoint`: raise
`ValueError` when the two entities share a mention id, else add all
cross pairs to the disjointness set.  The disjointness set is passed
and returned explicitly (`self.disjoint_mentions` threading). -/
def mark_disjoint (d : List (Nat × Nat)) (one other : Entity) :
    Except PyErr (List (Nat × Nat)) :=
  let ids_in_both := (idSet one).filter (fun i => (idSet other).contains i)
  if ids_in_both.isEmpty then .ok (d ++ crossPairs one other)
  else .error .valueError

/-- entities.py lines 213-225, `Entities.merge_allowed`: no cross pair
of the two entities' mention ids is in the disjointness set. -/
def merge_allowed (d : List (Nat × Nat)) (one other : Entity) : Bool :=
  (idSet one).all (fun a => (idSet other).all (fun b => !(pairMem d a b)))

/-- The inner condition of
`Entities.disjointness_constraints_satisfied` for a single entity: no
pair of its mention ids (reflexive pairs included) is in the
disjointness set. -/
def entityOk (d : List (Nat × Nat)) (e : Entity) : Bool :=
  (idSet e).all (fun a => (idSet e).all (fun b => !(pairMem d a b)))

/-- entities.py lines 189-211,
`Entities.disjointness_constraints_satisfied` (with `entities = self`):
every entity still in the collection is free of forbidden mention-id
pairs. -/
def Entities.disjointness_constraints_satisfied (st : Entities) : Bool :=
  st.position.all (fun s =>
    match s with
    | none => true
    | some o => entityOk st.disjoint (st.obj o))

/-- entities.py lines 133-140, `Entities.discard`: tombstone the slot
of the given object if present, else do nothing. -/
def Entities.discard (st : Entities) (o : Nat) : Entities :=
  { st with position := st.position.map (fun s => if s == some o then none else s) }

/-- entities.py lines 227-254, `Entities.merge`, embedded exactly as
written: after the membership check it evaluates
`entity_to_keep.merge(other)` — but class `Entity` (entity.py) defines
only `_merge`, not `merge`, so this attribute lookup raises
`AttributeError` for every member `entity_to_keep`. -/
def Entities.merge (st : Entities) (entity_to_keep other : Nat) :
    Except PyErr Entities :=
  if !(st.containsObj entity_to_keep) then .error .valueError
  else
    let _ := other
    .error .attributeError

/-- entities.py lines 90-95, slot index of an object
(`self._contained_entities[self._get_entity_key(entity)]`). -/
def Entities.slotOf (st : Entities) (o : Nat) : Nat :=
  st.position.findIdx (fun s => s == some o)

/-- entities.py lines 93-95, `Entities.entities_before`: all live
objects in slots strictly before the given object's slot, in
collection order. -/
def Entities.entities_before (st : Entities) (o : Nat) : List Nat :=
  (st.position.take (st.slotOf o)).filterMap id

/-- Result of calling the stored `default_filter` (see
`stored_default_filter`): either an actual boolean or a function
object. -/
inductive PyRet where
  | rbool (b : Bool)
  | rfunc
deriving DecidableEq, Repr

/-- Python truthiness of a `PyRet`: a function object is truthy. -/
def PyRet.truthy : PyRet → Bool
  | .rbool b => b
  | .rfunc => true

/-- entities.py lines 52-53:
`self.default_filter = lambda x: True if default_filter is None else default_filter`.
The conditional expression is the whole lambda body, so when a
`default_filter` argument was given the stored filter returns that
function object itself (truthy) instead of applying it. -/
def stored_default_filter (default_filter : Option (Entity → PyRet)) :
    Entity → PyRet :=
  fun _x => if default_filter.isSome then .rfunc else .rbool true

/-- entities.py lines 256-275, `Entities.get_candidates`:
`ValueError` when the entity is not a member; otherwise the objects
before it that pass the (truthiness of the) filter and are
merge-allowed with it.  `default_filter` is the construction-time
argument (stored via `stored_default_filter`) and `entity_filter` the
per-call filter. -/
def Entities.get_candidates (st : Entities)
    (default_filter : Option (Entity → PyRet)) (o : Nat)
    (entity_filter : Option (Entity → PyRet)) : Except PyErr (List Nat) :=
  if !(st.containsObj o) then .error .valueError
  else
    let f := match entity_filter with
      | none => stored_default_filter default_filter
      | some g => g
    .ok ((st.entities_before o).filter (fun c =>
      (f (st.obj c)).truthy && merge_allowed st.disjoint (st.obj o) (st.obj c)))

/-!
## Filters (filters.py)

Each predicate is defined on the mention level.  The module then lifts
them to the entity level with

    for func in [is_nominal, is_named_entity, is_proper_noun, is_pronoun]:
        @func.register(Entity)
        def _(entity):
            return any(map(func, entity))

The registered closure reads the loop variable `func` when *called*,
after the loop has finished, at which point `func` is `is_pronoun`; so
every entity-level variant computes "some member is a pronoun".
-/

/-- filters.py line 15, `NOMINAL_POSES`. -/
def NOMINAL_POSES : List String := ["name", "noun"]

/-- filters.py lines 16-21, `CORRECT_TYPES`. -/
def CORRECT_TYPES : List String := ["PER", "ORG", "LOC", "MISC"]

/-- filters.py lines 24-27, `is_nominal` on a mention:
`mention.head_pos in NOMINAL_POSES`. -/
def is_nominal_mention (m : Mention) : Bool :=
  NOMINAL_POSES.any (fun p => m.head_pos == some p)

/-- filters.py lines 35-40, `is_named_entity` on a mention:
`mention.entity_type is not None`. -/
def is_named_entity_mention (m : Mention) : Bool :=
  m.entity_type.isSome

/-- filters.py lines 43-45, `is_proper_noun` on a mention:
`mention.entity_type in CORRECT_TYPES`. -/
def is_proper_noun_mention (m : Mention) : Bool :=
  CORRECT_TYPES.any (fun t => m.entity_type == some t)

/-- filters.py lines 48-50, `is_pronoun` on a mention:
`mention.head_pos == 'pron'`. -/
def is_pronoun_mention (m : Mention) : Bool :=
  m.head_pos == some "pron"

/-- filters.py lines 53-57: the `Entity` overload registered for
`is_nominal`.  Its body `any(map(func, entity))` reads the module-level
loop variable `func` at call time, which is then `is_pronoun`. -/
def is_nominal_entity (e : Entity) : Bool :=
  e.any is_pronoun_mention

/-- filters.py lines 53-57: the `Entity` overload registered for
`is_named_entity` (late-bound body: `any(map(is_pronoun, entity))`). -/
def is_named_entity_entity (e : Entity) : Bool :=
  e.any is_pronoun_mention

/-- filters.py lines 53-57: the `Entity` overload registered for
`is_proper_noun` (late-bound body: `any(map(is_pronoun, entity))`). -/
def is_proper_noun_entity (e : Entity) : Bool :=
  e.any is_pronoun_mention

/-- filters.py lines 53-57: the `Entity` overload registered for
`is_pronoun` (late-bound body: `any(map(is_pronoun, entity))`). -/
def is_pronoun_entity (e : Entity) : Bool :=
  e.any is_pronoun_mention

/-!
## Constraints (constraints.py)
-/

/-- constraints.py lines 92-124, `check_not_i_within_i`:

    (boffset2 > boffset1 and eoffset2 > eoffset1)
    or
    (eoffset1 > eoffset2 and boffset1 > boffset2)

with `1` the antecedent mention and `2` the later mention. -/
def check_not_i_within_i (antecedent_mention mention : Mention) : Bool :=
  (decide (mention.begin_offset > antecedent_mention.begin_offset) &&
    decide (mention.end_offset > antecedent_mention.end_offset))
  ||
  (decide (antecedent_mention.end_offset > mention.end_offset) &&
    decide (antecedent_mention.begin_offset > mention.begin_offset))

/-!
## Sieve functions (resolve_coreference.py)

Each sieve receives the entity under consideration and the candidate
antecedents.  In the source the candidates are a single lazy generator
(`Entities.get_candidates`), consumed across the sieve's loops; the
embedding passes the not-yet-consumed suffix of the candidate list
explicitly, and a scan returns the consumed-up-to remainder together
with its result.
-/

/-- offset_info.py lines 13-17, `get_strings_from_offsets`:
`[offset2string.get(mid) for mid in id_span]` (a missing offset gives
`None`). -/
def get_strings_from_offsets (id_span : List Nat)
    (offset2string : List (Nat × String)) : List (Option String) :=
  id_span.map (fun mid => offset2string.lookup mid)

/-- Inner candidate test of `match_some_span` (resolve_coreference.py
lines 51-58): for each `candidate_mention` of the candidate the code
computes `candidate_string = get_strings_from_offsets(get_span(mention),
offset2string)` — from `mention`, not from `candidate_mention` — and
compares it with `mention_string`. -/
def match_some_span_hits (get_span : Mention → List Nat)
    (offset2string : List (Nat × String)) (mention : Mention)
    (mention_string : List (Option String)) (candidate : Entity) : Bool :=
  candidate.any (fun _candidate_mention =>
    get_strings_from_offsets (get_span mention) offset2string == mention_string)

/-- The `for candidate in filter(candidate_filter, candidates)` loop of
`match_some_span` for one `mention`: returns the matched candidate (if
any) and the unconsumed remainder of the candidates generator. -/
def match_some_span_scan (get_span : Mention → List Nat)
    (offset2string : List (Nat × String))
    (candidate_filter : Entity → Bool) (mention : Mention)
    (mention_string : List (Option String)) :
    List Entity → Option Entity × List Entity
  | [] => (none, [])
  | candidate :: rest =>
      if candidate_filter candidate then
        if match_some_span_hits get_span offset2string mention
            mention_string candidate then
          (some candidate, rest)
        else
          match_some_span_scan get_span offset2string candidate_filter
            mention mention_string rest
      else
        match_some_span_scan get_span offset2string candidate_filter
          mention mention_string rest

/-- The outer `for mention in entity` loop of `match_some_span`. -/
def match_some_span_go (get_span : Mention → List Nat)
    (offset2string : List (Nat × String))
    (candidate_filter : Entity → Bool) :
    List Mention → List Entity → Option Entity
  | [], _ => none
  | mention :: mentions, candidates =>
      let mention_string :=
        get_strings_from_offsets (get_span mention) offset2string
      match match_some_span_scan get_span offset2string candidate_filter
          mention mention_string candidates with
      | (some c, _) => some c
      | (none, rest) =>
          match_some_span_go get_span offset2string candidate_filter
            mentions rest

/-- resolve_coreference.py lines 28-74, `match_some_span`. -/
def match_some_span (entity : Entity) (candidates : List Entity)
    (get_span : Mention → List Nat) (offset2string : List (Nat × String))
    (candidate_filter : Entity → Bool) : Option Entity :=
  match_some_span_go get_span offset2string candidate_filter entity candidates

/-- resolve_coreference.py lines 77-85, `match_full_name_overlap`:
`match_some_span` over the full spans with the default (always-true)
candidate filter. -/
def match_full_name_overlap (entity : Entity) (candidates : List Entity)
    (offset2string : List (Nat × String)) : Option Entity :=
  match_some_span entity candidates (fun m => m.span) offset2string
    (fun _e => true)

/-- resolve_coreference.py lines 177-189, `identify_some_structures`:
scan the candidates for one containing a mention whose span is among
the given structure spans; returns the match (if any) and the
unconsumed remainder of the generator. -/
def identify_some_structures (structures : List (List Nat)) :
    List Entity → Option Entity × List Entity
  | [] => (none, [])
  | candidate :: rest =>
      if candidate.any (fun m => structures.contains m.span) then
        (some candidate, rest)
      else
        identify_some_structures structures rest

/-- resolve_coreference.py lines 192-199,
`identify_appositive_structures`: calls
`identify_some_structures(entity, candidates, 'appositives')` but has
no `return`, so its own result is always `None`; the candidates
generator is still consumed by the call. -/
def identify_appositive_structures (entity : Entity)
    (candidates : List Entity) : Option Entity × List Entity :=
  (none, (identify_some_structures (appositivesFlat entity) candidates).2)

/-- resolve_coreference.py lines 202-211,
`identify_predicative_structures`: same missing `return` as
`identify_appositive_structures`, via the predicative spans. -/
def identify_predicative_structures (entity : Entity)
    (candidates : List Entity) : Option Entity × List Entity :=
  (none, (identify_some_structures (predicativesFlat entity) candidates).2)

/-- resolve_coreference.py lines 214-228,
`resolve_relative_pronoun_structures`: when the entity has a
relative-pronoun mention the code evaluates
`entity.mention_attr('head_offsets')`, but no `Mention` attribute is
named `head_offsets` (the field is `head_offset`), so it raises
`AttributeError`; otherwise it returns `None` without consuming any
candidate. -/
def resolve_relative_pronoun_structures (entity : Entity)
    (candidates : List Entity) :
    Except PyErr (Option Entity × List Entity) :=
  if entity.any (fun m => m.is_relative_pronoun) then .error .attributeError
  else .ok (none, candidates)

/-- The `for candidate in candidates` loop of
`identify_acronyms_or_alternative_names` (resolve_coreference.py lines
291-301). -/
def identify_acronyms_scan (entity : Entity) :
    List Entity → Option Entity × List Entity
  | [] => (none, [])
  | candidate :: rest =>
      let etypes := entityTypeSet candidate
      if CORRECT_TYPES.any (fun t => etypes.contains (some t)) then
        let e_modifies_c :=
          (spanSet entity).any (fun s => (modifiersFlat candidate).contains s)
        let c_modifies_e :=
          (spanSet candidate).any (fun s => (modifiersFlat entity).contains s)
        if e_modifies_c || c_modifies_e then (some candidate, rest)
        else identify_acronyms_scan entity rest
      else identify_acronyms_scan entity rest

/-- resolve_coreference.py lines 261-301,
`identify_acronyms_or_alternative_names`: only acts when the entity's
`entity_type` set meets `correct_types`; merges two named entities when
one's span occurs among the other's modifier spans. -/
def identify_acronyms_or_alternative_names (entity : Entity)
    (candidates : List Entity) : Option Entity × List Entity :=
  if CORRECT_TYPES.any (fun t => (entityTypeSet entity).contains (some t)) then
    identify_acronyms_scan entity candidates
  else
    (none, candidates)

/-- Inner test of `resolve_reflexive_pronoun_structures`
(resolve_coreference.py lines 252-258): some candidate mention in the
same sentence, not containing the reflexive's head offset in its span,
with an earlier head offset. -/
def reflexive_candidate_hits (mention : Mention) (candidate : Entity) : Bool :=
  candidate.any (fun cand_mention =>
    cand_mention.sentence_number == mention.sentence_number &&
    !(cand_mention.span.contains mention.head_offset) &&
    decide (cand_mention.head_offset < mention.head_offset))

/-- The `for candidate in candidates` loop of
`resolve_reflexive_pronoun_structures` for one reflexive mention. -/
def reflexive_scan (mention : Mention) :
    List Entity → Option Entity × List Entity
  | [] => (none, [])
  | candidate :: rest =>
      if reflexive_candidate_hits mention candidate then (some candidate, rest)
      else reflexive_scan mention rest

/-- resolve_coreference.py lines 231-258,
`resolve_reflexive_pronoun_structures`: outer loop over the entity's
mentions, consuming the shared candidates generator only for reflexive
mentions. -/
def resolve_reflexive_pronoun_structures :
    List Mention → List Entity → Option Entity × List Entity
  | [], candidates => (none, candidates)
  | mention :: mentions, candidates =>
      if mention.is_reflexive_pronoun then
        match reflexive_scan mention candidates with
        | (some c, rest) => (some c, rest)
        | (none, rest) => resolve_reflexive_pronoun_structures mentions rest
      else
        resolve_reflexive_pronoun_structures mentions candidates

/-- resolve_coreference.py lines 315-333, `apply_precise_constructs`:
the short-circuit `or` chain of the five resolvers, all five reading
from the same candidates generator. -/
def apply_precise_constructs (entity : Entity) (candidates : List Entity) :
    Except PyErr (Option Entity) :=
  let p1 := identify_appositive_structures entity candidates
  match p1.1 with
  | some c => .ok (some c)
  | none =>
    let p2 := identify_predicative_structures entity p1.2
    match p2.1 with
    | some c => .ok (some c)
    | none =>
      match resolve_relative_pronoun_structures entity p2.2 with
      | .error e => .error e
      | .ok p3 =>
        match p3.1 with
        | some c => .ok (some c)
        | none =>
          let p4 := identify_acronyms_or_alternative_names entity p3.2
          match p4.1 with
          | some c => .ok (some c)
          | none =>
            let p5 := resolve_reflexive_pronoun_structures entity p4.2
            .ok p5.1

/-- Python set equality of two value sets (used for
`{'pron'} == entity.mention_attr('head_pos')`). -/
def setEqB (xs ys : List (Option String)) : Bool :=
  xs.all (fun x => ys.contains x) && ys.all (fun y => xs.contains y)

/-- Nonemptiness of the intersection of two value sets
(`cnd_number & number` used as a truth value). -/
def interNonempty (xs ys : List (Option String)) : Bool :=
  xs.any (fun x => ys.contains x)

/-- Maximum of a nonempty value set (`max(sentence_number)`); `0` on
the empty list, which an entity (nonempty by invariant) never
produces. -/
def maxOf : List Int → Int
  | [] => 0
  | x :: xs => xs.foldl max x

/-- Minimum of a nonempty value set (`min(sentence_number)`). -/
def minOf : List Int → Int
  | [] => 0
  | x :: xs => xs.foldl min x

/-- The `for candidate in candidates` loop of
`resolve_pronoun_coreference` (resolve_coreference.py lines 673-687).
The four `cnd_*` sets are computed — exactly as in the source (lines
679-682) — from `entity`, not from `candidate`. -/
def resolve_pronoun_scan (entity : Entity) (min_sent_nr max_sent_nr : Int)
    (number gender person label : List (Option String)) :
    List Entity → Option Entity
  | [] => none
  | candidate :: rest =>
      let close_enough := (sentSet candidate).any (fun n =>
        decide (min_sent_nr ≤ n) && decide (n ≤ max_sent_nr))
      if close_enough then
        let cnd_number := numberSet entity
        let cnd_gender := genderSet entity
        let cnd_person := personSet entity
        let cnd_label := entityTypeSet entity
        if (cnd_number.isEmpty || number.isEmpty ||
              interNonempty cnd_number number) &&
           (cnd_gender.isEmpty || gender.isEmpty ||
              interNonempty cnd_gender gender) &&
           (cnd_person.isEmpty || person.isEmpty ||
              interNonempty cnd_person person) &&
           (cnd_label.isEmpty || label.isEmpty ||
              interNonempty cnd_label label) then
          some candidate
        else
          resolve_pronoun_scan entity min_sent_nr max_sent_nr number gender
            person label rest
      else
        resolve_pronoun_scan entity min_sent_nr max_sent_nr number gender
          person label rest

/-- resolve_coreference.py lines 610-687,
`resolve_pronoun_coreference`: only acts when the entity's `head_pos`
set equals `{'pron'}`; computes the sentence window from the entity's
sentence numbers and the agreement sets, then scans the candidates. -/
def resolve_pronoun_coreference (entity : Entity) (candidates : List Entity)
    (max_sentence_distance : Int) : Option Entity :=
  if setEqB (headPosSet entity) [some "pron"] then
    let sentence_number := sentSet entity
    let max_sent_nr := maxOf sentence_number + max_sentence_distance
    let min_sent_nr := minOf sentence_number - max_sentence_distance
    resolve_pronoun_scan entity min_sent_nr max_sent_nr
      (numberSet entity) (genderSet entity) (personSet entity)
      (entityTypeSet entity) candidates
  else
    none

/-!
## Speaker identification (resolve_coreference.py lines 105-174) and
## the sieve runner (sieve_runner.py)

A quotation's `source`, `addressee` and `topic` are references to
`Entity` objects (arena ids); `None` is modelled by `none`.  The sieve
receives `mark_disjoint = partial(entities.mark_disjoint, entity)`, so
every mark pairs the current entity with the referenced object; the
disjointness set is threaded explicitly.
-/

/-- A quotation as consumed by `speaker_identification`: its offset
span and the resolved source/addressee/topic entity references. -/
structure Quotation where
  span : List Nat
  source : Option Nat := none
  addressee : Option Nat := none
  topic : Option Nat := none
deriving DecidableEq, Repr

/-- Python `set(entity_span).issubset(set(quote.span))`. -/
def subsetB (xs ys : List Nat) : Bool :=
  xs.all (fun x => ys.contains x)

/-- Apply `mark_disjoint(entity, ref)` for an optional entity
reference (`if topic: mark_disjoint(topic)` — an `Entity` object is
always truthy, `None` is falsy). -/
def markOpt (st : Entities) (entity : Entity) (ref : Option Nat)
    (d : List (Nat × Nat)) : Except PyErr (List (Nat × Nat)) :=
  match ref with
  | none => .ok d
  | some r => mark_disjoint d entity (st.obj r)

/-- resolve_coreference.py lines 105-174, `speaker_identification`,
for the entity with arena id `e`: loop over the quotations; inside a
quotation containing the entity's full span, dispatch on grammatical
person for pronoun entities (marking and possibly returning the
quotation's source/addressee/topic), or mark the source disjoint for
non-pronoun entities.  Returns the matched entity reference (or
`none`) together with the updated disjointness set. -/
def speaker_identification (st : Entities) (e : Nat) :
    List Quotation → List (Nat × Nat) →
    Except PyErr (Option Nat × List (Nat × Nat))
  | [], d => .ok (none, d)
  | quote :: rest, d =>
      let entity := st.obj e
      if subsetB (flatSpan entity) quote.span then
        if (headPosSet entity).contains (some "pron") then
          if (personSet entity).contains (some "1") then do
            let d ← markOpt st entity quote.topic d
            let d ← markOpt st entity quote.addressee d
            match quote.source with
            | some s => .ok (some s, d)
            | none => speaker_identification st e rest d
          else if (personSet entity).contains (some "2") then do
            let d ← markOpt st entity quote.source d
            let d ← markOpt st entity quote.topic d
            match quote.addressee with
            | some a => .ok (some a, d)
            | none => speaker_identification st e rest d
          else if (personSet entity).contains (some "3") then do
            let d ← markOpt st entity quote.source d
            let d ← markOpt st entity quote.addressee d
            match quote.topic with
            | some t => .ok (some t, d)
            | none => speaker_identification st e rest d
          else
            speaker_identification st e rest d
        else
          match quote.source with
          | some s => do
              let d ← mark_disjoint d entity (st.obj s)
              speaker_identification st e rest d
          | none => speaker_identification st e rest d
      else
        speaker_identification st e rest d

/-- The mention-id uniqueness invariant of the data model (spec: a
mention id is unique across the whole mention set for the duration of
a run; `Entities.from_mentions`, entities.py lines 277-296, rejects
duplicate ids), stated on the collection: distinct live objects hold
entities with disjoint mention-id sets. -/
def Entities.pairwise_id_disjoint (st : Entities) : Bool :=
  (st.position.filterMap id).all (fun p =>
    (st.position.filterMap id).all (fun q =>
      p == q ||
        (idSet (st.obj p)).all (fun i => decide (i ∉ idSet (st.obj q)))))

/-- The elementary collection mutations `SieveRunner.run`
(sieve_runner.py lines 14-34) can perform.  During a pass the runner
mutates the collection in exactly two ways: the sieve may call the
callback `partial(self.entities.mark_disjoint, entity)` — its first
argument is always the current (member) entity, its second an
arbitrary `Entity` object supplied by the sieve (for
`speaker_identification`: a quotation's source, addressee or topic) —
and, on a match, the runner calls `self.entities.merge(match, entity)`.
Every state reachable by running any sieve pipeline is reached through
a sequence of these two steps.  The merge step uses the literal
`Entities.merge`, whose call `entity_to_keep.merge(other)` raises
`AttributeError` before mutating anything (entity.py defines only
`_merge`), so it never actually produces a state. -/
inductive RunnerStep : Entities → Entities → Prop where
  | mark (st : Entities) (o : Nat) (other : Entity) (d : List (Nat × Nat))
      (ho : st.containsObj o = true)
      (hmark : mark_disjoint st.disjoint (st.obj o) other = .ok d) :
      RunnerStep st { st with disjoint := d }
  | merge (st st2 : Entities) (k o : Nat)
      (hmerge : Entities.merge st k o = .ok st2) :
      RunnerStep st st2

/-!
## The specification's reading of `mention_attr`, for comparison
-/

/-- Modelled from the spec: "`mention_attr(name)`: returns the set of
values of `name` over member mentions, skipping members for which the
value is null/absent.  Fails with a 'no such attribute on any member'
error if zero members have a usable value."  Null (`None`) values are
skipped here, unlike in `Entity.mention_attr` as implemented, which
skips only absent attributes. -/
def mention_attr_specified (e : Entity) (attr : String) :
    Except PyErr (List AttrVal) :=
  let usable := (e.filterMap (fun m => m.pyattr attr)).filter
    (fun v => v != AttrVal.anone)
  if usable.isEmpty then .error .attributeError else .ok usable.dedup

/-!
## Concrete instances used by the claim theorems
-/

/-- Mention used by the merge example. -/
def mA : Mention := { id := 11, span := [1] }

/-- Second mention used by the merge example. -/
def mB : Mention := { id := 12, span := [2] }

/-- Collection of the two singleton entities for `mA` and `mB`. -/
def stMerge : Entities :=
  { objects := [[mA], [mB]], position := [some 0, some 1], disjoint := [] }

/-- Mention rendered as the string "Obama". -/
def mObama : Mention := { id := 1, span := [0] }

/-- Mention rendered as the string "Merkel". -/
def mMerkel : Mention := { id := 2, span := [20] }

/-- Offset-to-string table for the string-match example. -/
def o2sEx : List (Nat × String) := [(0, "Obama"), (20, "Merkel")]

/-- Entity mention whose appositive spans contain `[10, 11]`. -/
def mAppos : Mention := { id := 1, span := [0], appositives := [[10, 11]] }

/-- Candidate mention whose span is exactly the appositive span
`[10, 11]` of `mAppos`. -/
def mApposCand : Mention := { id := 2, span := [10, 11] }

/-- A masculine singular third-person pronoun at sentence 5. -/
def mPron : Mention :=
  { id := 1, head_pos := some "pron", sentence_number := 5,
    gender := some "masc", number := some "ev", person := some "3" }

/-- A feminine named-entity mention at sentence 4: its gender set
conflicts with `mPron`'s. -/
def mJan : Mention :=
  { id := 2, head_pos := some "name", sentence_number := 4,
    gender := some "fem", number := some "ev", entity_type := some "PER" }

/-- First mention of an identical-span pair (offsets 0-5). -/
def mSpanA : Mention := { id := 1, begin_offset := 0, end_offset := 5 }

/-- Second mention of an identical-span pair (offsets 0-5). -/
def mSpanB : Mention := { id := 2, begin_offset := 0, end_offset := 5 }

/-- A named, nominal, non-pronoun mention (head POS `name`, entity type
`PER`). -/
def mName : Mention :=
  { id := 1, head_pos := some "name", entity_type := some "PER" }

/-- A mention all of whose optional feature attributes are `None`. -/
def mBare : Mention := { id := 1 }

/-- Mention for the disjointness witness. -/
def mW1 : Mention := { id := 1 }

/-- Second mention for the disjointness witness. -/
def mW2 : Mention := { id := 2 }

/-- Third mention for the disjointness witness. -/
def mW3 : Mention := { id := 3 }

/-- Collection for the disjointness witness: the entity of `mW2`
occurs before the entity of `mW1`, and the two have been marked
disjoint. -/
def stW3 : Entities :=
  { objects := [[mW2], [mW1]], position := [some 0, some 1],
    disjoint := [] ++ crossPairs [mW1] [mW2] }

/-- Collection for the C2 witness: two singleton entities with
distinct mention ids and no constraints. -/
def stRun : Entities :=
  { objects := [[mW1], [mW2]], position := [some 0, some 1], disjoint := [] }

/-- Collection for the default-filter witness: two singleton entities,
no constraints. -/
def stDF : Entities :=
  { objects := [[mA], [mB]], position := [some 0, some 1], disjoint := [] }

/-- A construction-time default filter that rejects every entity —
were it applied. -/
def rejectAll : Entity → PyRet := fun _e => .rbool false

/-- Decidable equality of `Except` results, so that concrete
evaluations of the fallible operations can be settled by `decide`. -/
instance {ε : Type u} {α : Type v} [DecidableEq ε] [DecidableEq α] :
    DecidableEq (Except ε α) := fun x y =>
  match x, y with
  | .ok a, .ok b =>
      decidable_of_iff (a = b) ⟨fun h => by rw [h], fun h => by injection h⟩
  | .error a, .error b =>
      decidable_of_iff (a = b) ⟨fun h => by rw [h], fun h => by injection h⟩
  | .ok _, .error _ => isFalse (fun h => by injection h)
  | .error _, .ok _ => isFalse (fun h => by injection h)

/-!
## Theorems
-/

/-- C1.  The claim states that `Entities.merge(e1, e2)` fails with a
validation error when `e1` is not a member and otherwise appends `e2`'s
mentions into `e1`, returns `e1`, keeps `e1` a member and discards a
distinct `e2`.  The non-member half is as claimed, but the member case
never merges: `Entities.merge` evaluates `entity_to_keep.merge(other)`
and class `Entity` has no attribute `merge` (only `_merge`), so the
call raises `AttributeError` — contradicting the behaviour the
repository's own tests (tests/test_entities.py, `test_merge`) assert.
This theorem evaluates the embedded code at the failing input: two
singleton member entities. -/
theorem entities_merge_member_raises_attribute_error :
    stMerge.containsObj 0 = true ∧ stMerge.containsObj 1 = true ∧
    Entities.merge stMerge 0 1 = .error .attributeError ∧
    Entities.merge stMerge 9 0 = .error .valueError := by
  decide

/-- C4, counterexample evaluation.  The claim states that
`match_full_name_overlap` returns a candidate iff some candidate
mention's rendered full-span string equals that of some entity
mention.  In `match_some_span` (resolve_coreference.py lines 53-54)
`candidate_string` is computed from `mention`, not from
`candidate_mention`, so the comparison always succeeds and the first
candidate is returned even though here the candidate renders as
"Merkel" and the entity as "Obama". -/
theorem match_full_name_overlap_ignores_strings :
    match_full_name_overlap [mObama] [[mMerkel]] o2sEx = some [mMerkel] ∧
    get_strings_from_offsets mMerkel.span o2sEx ≠
      get_strings_from_offsets mObama.span o2sEx := by
  decide

/-- C5, counterexample evaluation.  The claim states that whenever a
candidate contains a mention whose span equals one of the entity's
appositive spans, `apply_precise_constructs` returns the first such
candidate.  Here such a candidate exists —
`identify_some_structures` finds it — but
`identify_appositive_structures` (resolve_coreference.py line 199)
discards that result (missing `return`), so `apply_precise_constructs`
returns `None`. -/
theorem apply_precise_constructs_drops_appositive_match :
    identify_some_structures (appositivesFlat [mAppos]) [[mApposCand]] =
      (some [mApposCand], []) ∧
    apply_precise_constructs [mAppos] [[mApposCand]] = .ok none := by
  decide

/-- C6, counterexample evaluation.  The claim states that the pronoun
sieve returns a candidate only if each of the candidate's agreement
value sets is empty or intersects the entity's.  The code
(resolve_coreference.py lines 679-682) computes the `cnd_*` sets from
`entity` instead of `candidate`, so agreement with the candidate is
never checked: here the candidate's gender set `{fem}` and the
entity's `{masc}` are nonempty and disjoint, yet the candidate is
returned. -/
theorem resolve_pronoun_ignores_candidate_agreement :
    resolve_pronoun_coreference [mPron] [[mJan]] 3 = some [mJan] ∧
    (genderSet [mJan]).isEmpty = false ∧
    (genderSet [mPron]).isEmpty = false ∧
    interNonempty (genderSet [mJan]) (genderSet [mPron]) = false := by
  decide

/-- C7, counterexample.  The claim states that a pair of mentions with
identical begin and end offsets satisfies `check_not_i_within_i`.  The
containment test uses non-strict bounds, so an identical-span pair is
treated as mutual containment and the function returns `False`. -/
theorem check_not_i_within_i_equal_spans_false :
    mSpanA.begin_offset = mSpanB.begin_offset ∧
    mSpanA.end_offset = mSpanB.end_offset ∧
    check_not_i_within_i mSpanA mSpanB = false := by
  decide

/-- C8, counterexample evaluation.  The claim states each entity-level
predicate is the disjunction of its mention-level counterpart over the
members.  The registration loop in filters.py closes over the loop
variable `func`, which at call time is `is_pronoun`, so for an entity
whose single mention has head POS `name` and entity type `PER` the
entity-level `is_nominal`, `is_named_entity` and `is_proper_noun` all
return `False` while the mention-level disjunctions are `True`. -/
theorem entity_filters_all_compute_is_pronoun :
    is_nominal_entity [mName] = false ∧
    List.any [mName] is_nominal_mention = true ∧
    is_named_entity_entity [mName] = false ∧
    List.any [mName] is_named_entity_mention = true ∧
    is_proper_noun_entity [mName] = false ∧
    List.any [mName] is_proper_noun_mention = true ∧
    is_pronoun_entity [mName] = List.any [mName] is_pronoun_mention := by
  decide

/-- C9, counterexample.  The claim states that `mention_attr` skips
members whose value is null and fails exactly when zero members have a
usable (non-null) value.  The code skips only members *lacking* the
attribute: for a mention whose `entity_type` is `None` the result is
the set `{None}` — the null value is included and no error is raised —
whereas the specification's reading (`mention_attr_specified`) would
raise. -/
theorem mention_attr_keeps_null_values :
    Entity.mention_attr [mBare] "entity_type" = .ok [AttrVal.anone] ∧
    mention_attr_specified [mBare] "entity_type" =
      .error .attributeError := by
  decide

/-- C7.  Amended claim: `check_not_i_within_i` is symmetric in its two
mention arguments, and for every pair of mentions with identical begin
and end offsets it returns **false** (an identical-span pair counts as
mutual containment, because the containment test the code negates uses
non-strict bounds). -/
theorem check_not_i_within_i_symmetric (m1 m2 : Mention) :
    check_not_i_within_i m1 m2 = check_not_i_within_i m2 m1 ∧
    (m1.begin_offset = m2.begin_offset → m1.end_offset = m2.end_offset →
      check_not_i_within_i m1 m2 = false) := by
  constructor
  · unfold check_not_i_within_i
    rw [Bool.or_comm,
      Bool.and_comm (decide (m1.end_offset > m2.end_offset))
        (decide (m1.begin_offset > m2.begin_offset)),
      Bool.and_comm (decide (m2.begin_offset > m1.begin_offset))
        (decide (m2.end_offset > m1.end_offset))]
  · intro hb he
    simp [check_not_i_within_i, hb, he]

/-- Witness for the C7 theorem at the identical-span pair
`mSpanA`/`mSpanB`. -/
theorem check_not_i_within_i_symmetric_witness :
    check_not_i_within_i mSpanA mSpanB = check_not_i_within_i mSpanB mSpanA ∧
    check_not_i_within_i mSpanA mSpanB = false :=
  ⟨(check_not_i_within_i_symmetric mSpanA mSpanB).1,
    (check_not_i_within_i_symmetric mSpanA mSpanB).2 rfl rfl⟩

/-- An `AttrVal.elems` error is always a `TypeError` (iterating a
non-iterable value). -/
theorem elems_error_eq_typeError (v : AttrVal) (err : PyErr)
    (h : AttrVal.elems v = .error err) : err = .typeError := by
  cases v <;> simp_all [AttrVal.elems]

/-- A `flattenVals` error is always a `TypeError`: the only failure in
the flattening itself is iterating a non-iterable value. -/
theorem flattenVals_error_eq_typeError :
    ∀ (vs : List AttrVal) (err : PyErr), flattenVals vs = .error err →
      err = .typeError := by
  intro vs
  induction vs with
  | nil =>
      intro err h
      exact absurd h (by simp [flattenVals])
  | cons v vs ih =>
      intro err h
      unfold flattenVals at h
      cases hv : v.elems with
      | error e1 =>
          rw [hv] at h
          simp only [Bind.bind, Except.bind] at h
          injection h with h1
          rw [← h1]
          exact elems_error_eq_typeError v e1 hv
      | ok first =>
          rw [hv] at h
          simp only [Bind.bind, Except.bind] at h
          cases hr : flattenVals vs with
          | error e2 =>
              rw [hr] at h
              simp only [Except.bind] at h
              injection h with h1
              rw [← h1]
              exact ih e2 hr
          | ok rest =>
              rw [hr] at h
              simp only [Except.bind] at h
              exact Except.noConfusion h

/-- A `flat_mention_attr` call raises `AttributeError` exactly when
the underlying `non_unique_mention_attr` does: the flattening step can
only add a `TypeError`. -/
theorem flat_mention_attr_error_iff (e : Entity) (attr : String) :
    Entity.flat_mention_attr e attr = .error .attributeError ↔
    Entity.non_unique_mention_attr e attr = .error .attributeError := by
  unfold Entity.flat_mention_attr
  cases hn : Entity.non_unique_mention_attr e attr with
  | error e1 =>
      simp only [Bind.bind, Except.bind]
  | ok xs =>
      simp only [Bind.bind, Except.bind]
      constructor
      · intro hc
        exfalso
        cases hr : flattenVals xs with
        | error e2 =>
            rw [hr] at hc
            simp only [Except.bind] at hc
            injection hc with h1
            have h2 := flattenVals_error_eq_typeError xs e2 hr
            rw [h2] at h1
            exact PyErr.noConfusion h1
        | ok flat =>
            rw [hr] at hc
            simp only [Except.bind] at hc
            exact Except.noConfusion hc
      · intro hc
        exact absurd hc (by simp)

/-- C9.  Amended claim: `mention_attr(name)` returns the set of values
of `name` over the member mentions that possess the attribute — null
values are included, only members lacking the attribute are skipped —
and `mention_attr` and `flat_mention_attr` fail with an
attribute-not-found error exactly when **no** member has the attribute
at all (a mix of members with and without the attribute is silently
filtered, not an error; `flat_mention_attr`'s only other failure mode
is a `TypeError` from a non-iterable value, never an
`AttributeError`). -/
theorem mention_attr_error_iff_no_member_has_attr
    (e : Entity) (attr : String) :
    (Entity.mention_attr e attr = .error .attributeError ↔
      ∀ m ∈ e, m.pyattr attr = none) ∧
    (Entity.flat_mention_attr e attr = .error .attributeError ↔
      ∀ m ∈ e, m.pyattr attr = none) ∧
    (∀ v : AttrVal,
      (∃ l, Entity.mention_attr e attr = .ok l ∧ v ∈ l) ↔
      ∃ m ∈ e, m.pyattr attr = some v) := by
  refine ⟨?_, ?_, ?_⟩
  · unfold Entity.mention_attr Entity.non_unique_mention_attr
    by_cases h : (e.filterMap (fun m => m.pyattr attr)).isEmpty
    · have hnil : e.filterMap (fun m => m.pyattr attr) = [] :=
        List.isEmpty_iff.mp h
      rw [List.filterMap_eq_nil_iff] at hnil
      simp only [h, if_true, Except.map]
      exact ⟨fun _ => hnil, fun _ => trivial⟩
    · simp only [h, if_false, Except.map]
      constructor
      · intro hc; exact absurd hc (by simp)
      · intro hall
        exact absurd (List.isEmpty_iff.mpr (List.filterMap_eq_nil_iff.mpr hall)) h
  · rw [flat_mention_attr_error_iff]
    unfold Entity.non_unique_mention_attr
    by_cases h : (e.filterMap (fun m => m.pyattr attr)).isEmpty
    · have hnil : e.filterMap (fun m => m.pyattr attr) = [] :=
        List.isEmpty_iff.mp h
      rw [List.filterMap_eq_nil_iff] at hnil
      simp only [h, if_true]
      exact ⟨fun _ => hnil, fun _ => trivial⟩
    · simp only [h, if_false]
      constructor
      · intro hc; exact absurd hc (by simp)
      · intro hall
        exact absurd (List.isEmpty_iff.mpr (List.filterMap_eq_nil_iff.mpr hall)) h
  · intro v
    unfold Entity.mention_attr Entity.non_unique_mention_attr
    by_cases h : (e.filterMap (fun m => m.pyattr attr)).isEmpty
    · have hnil : e.filterMap (fun m => m.pyattr attr) = [] :=
        List.isEmpty_iff.mp h
      rw [List.filterMap_eq_nil_iff] at hnil
      simp only [h, if_true, Except.map]
      constructor
      · rintro ⟨l, hl, -⟩; exact absurd hl (by simp)
      · rintro ⟨m, hm, hv⟩
        exact absurd (hnil m hm) (by simp [hv])
    · simp only [h, if_false, Except.map]
      constructor
      · rintro ⟨l, hl, hv⟩
        have hl2 : (e.filterMap (fun m => m.pyattr attr)).dedup = l := by
          injection hl
        rw [← hl2, List.mem_dedup, List.mem_filterMap] at hv
        exact hv
      · rintro ⟨m, hm, hv⟩
        exact ⟨_, rfl, by
          rw [List.mem_dedup, List.mem_filterMap]; exact ⟨m, hm, hv⟩⟩

/-- Witness for the C9 theorem: a name that is no attribute of any
member makes both `mention_attr` and `flat_mention_attr` raise. -/
theorem mention_attr_error_iff_no_member_has_attr_witness :
    Entity.mention_attr [mBare] "bogus_attr" = .error .attributeError ∧
    Entity.flat_mention_attr [mBare] "bogus_attr" =
      .error .attributeError :=
  ⟨(mention_attr_error_iff_no_member_has_attr [mBare] "bogus_attr").1.mpr
      (by decide),
    (mention_attr_error_iff_no_member_has_attr
      [mBare] "bogus_attr").2.1.mpr (by decide)⟩

/-- C10.  When the collection was constructed with any `default_filter`
argument, `get_candidates` without an explicit filter yields every
earlier merge-allowed entity: the stored default filter
(`stored_default_filter`) always evaluates truthy, so it never
excludes a candidate. -/
theorem get_candidates_ignores_default_filter
    (st : Entities) (default_filter : Option (Entity → PyRet)) (o : Nat)
    (hmem : st.containsObj o = true) :
    st.get_candidates default_filter o none =
      .ok ((st.entities_before o).filter (fun c =>
        merge_allowed st.disjoint (st.obj o) (st.obj c))) := by
  unfold Entities.get_candidates
  rw [hmem]
  simp only [Bool.not_true, Bool.false_eq_true, if_false]
  congr 1
  apply List.filter_congr
  intro c _hc
  cases default_filter <;>
    simp [stored_default_filter, PyRet.truthy]

/-- Witness for the C10 theorem: a construction-time default filter
that rejects everything still excludes no candidate. -/
theorem get_candidates_ignores_default_filter_witness :
    stDF.containsObj 1 = true ∧
    stDF.get_candidates (some rejectAll) 1 none =
      .ok ((stDF.entities_before 1).filter (fun c =>
        merge_allowed stDF.disjoint (stDF.obj 1) (stDF.obj c))) :=
  ⟨by decide,
    get_candidates_ignores_default_filter stDF (some rejectAll) 1 (by decide)⟩

/-- The disjoint-pair test is symmetric: the stored pairs are
unordered (`frozenset`s). -/
theorem pairMem_comm (d : List (Nat × Nat)) (x y : Nat) :
    pairMem d x y = pairMem d y x := by
  unfold pairMem
  congr 1
  funext p
  rw [Bool.or_comm]

/-- Membership characterisation of `merge_allowed`. -/
theorem merge_allowed_eq_true_iff (d : List (Nat × Nat)) (a b : Entity) :
    merge_allowed d a b = true ↔
    ∀ x ∈ idSet a, ∀ y ∈ idSet b, pairMem d x y = false := by
  simp [merge_allowed, List.all_eq_true]

/-- Membership characterisation of `entityOk`. -/
theorem entityOk_eq_true_iff (d : List (Nat × Nat)) (e : Entity) :
    entityOk d e = true ↔
    ∀ x ∈ idSet e, ∀ y ∈ idSet e, pairMem d x y = false := by
  simp [entityOk, List.all_eq_true]

/-- The id set of an appended mention list is the union of the id
sets. -/
theorem mem_idSet_append (a b : Entity) (x : Nat) :
    x ∈ idSet (a ++ b) ↔ x ∈ idSet a ∨ x ∈ idSet b := by
  simp [idSet, List.mem_dedup]

/-- A nonempty entity has a nonempty id set. -/
theorem exists_mem_idSet (a : Entity) (ha : a ≠ []) :
    ∃ x, x ∈ idSet a := by
  obtain ⟨m, hm⟩ := List.exists_mem_of_ne_nil a ha
  exact ⟨m.id, by
    rw [idSet, List.mem_dedup]
    exact List.mem_map_of_mem (fun m => m.id) hm⟩

/-- A cross pair of the two marked entities is in the extended
disjointness set. -/
theorem pairMem_append_crossPairs (d : List (Nat × Nat)) (a b : Entity)
    (x y : Nat) (hx : x ∈ idSet a) (hy : y ∈ idSet b) :
    pairMem (d ++ crossPairs a b) x y = true := by
  unfold pairMem
  rw [List.any_eq_true]
  refine ⟨(x, y), ?_, by simp⟩
  rw [List.mem_append]
  right
  unfold crossPairs
  rw [List.mem_flatMap]
  exact ⟨x, hx, List.mem_map_of_mem (fun y => (x, y)) hy⟩

/-- A single forbidden cross pair refutes `merge_allowed`. -/
theorem merge_allowed_eq_false_of_pair (d : List (Nat × Nat))
    (a b : Entity) (x y : Nat) (hx : x ∈ idSet a) (hy : y ∈ idSet b)
    (hp : pairMem d x y = true) : merge_allowed d a b = false := by
  cases hma : merge_allowed d a b with
  | false => rfl
  | true =>
      rw [merge_allowed_eq_true_iff] at hma
      rw [hma x hx y hy] at hp
      exact absurd hp (by simp)

/-- C3.  For entities `a` and `b` with nonempty, disjoint mention-id
sets: `mark_disjoint` succeeds and extends the disjointness set with
the cross pairs; afterwards `merge_allowed` is false for the pair in
both argument orders; `get_candidates` of either entity (in any state
carrying the extended disjointness set, under any filter) never yields
the other; and after a third entity `c` is merged into either of the
pair (`Entity._merge` appends the mention lists) the combined entity
is still not merge-allowed with the other, in either order. -/
theorem mark_disjoint_blocks_merges
    (a b c : Entity) (d : List (Nat × Nat)) (st : Entities)
    (oa ob : Nat) (df fil : Option (Entity → PyRet)) (cla clb : List Nat)
    (ha : a ≠ []) (hb : b ≠ [])
    (hids : ∀ i ∈ idSet a, i ∉ idSet b)
    (hD : st.disjoint = d ++ crossPairs a b)
    (hoa : st.obj oa = a) (hob : st.obj ob = b)
    (hca : st.get_candidates df oa fil = .ok cla)
    (hcb : st.get_candidates df ob fil = .ok clb) :
    mark_disjoint d a b = .ok (d ++ crossPairs a b) ∧
    merge_allowed (d ++ crossPairs a b) a b = false ∧
    merge_allowed (d ++ crossPairs a b) b a = false ∧
    ob ∉ cla ∧ oa ∉ clb ∧
    merge_allowed (d ++ crossPairs a b) (a ++ c) b = false ∧
    merge_allowed (d ++ crossPairs a b) b (a ++ c) = false ∧
    merge_allowed (d ++ crossPairs a b) a (b ++ c) = false ∧
    merge_allowed (d ++ crossPairs a b) (b ++ c) a = false := by
  obtain ⟨x, hx⟩ := exists_mem_idSet a ha
  obtain ⟨y, hy⟩ := exists_mem_idSet b hb
  have hpair : pairMem (d ++ crossPairs a b) x y = true :=
    pairMem_append_crossPairs d a b x y hx hy
  have hpair' : pairMem (d ++ crossPairs a b) y x = true := by
    rw [pairMem_comm]; exact hpair
  have hab : merge_allowed (d ++ crossPairs a b) a b = false :=
    merge_allowed_eq_false_of_pair _ _ _ x y hx hy hpair
  have hba : merge_allowed (d ++ crossPairs a b) b a = false :=
    merge_allowed_eq_false_of_pair _ _ _ y x hy hx hpair'
  refine ⟨?_, hab, hba, ?_, ?_, ?_, ?_, ?_, ?_⟩
  · unfold mark_disjoint
    have : (idSet a).filter (fun i => (idSet b).contains i) = [] := by
      rw [List.filter_eq_nil_iff]
      intro i hi
      rw [Bool.not_eq_true, Bool.eq_false_iff]
      intro hc
      exact hids i hi (List.elem_iff.mp hc)
    rw [this]
    rfl
  · intro hmem
    cases hmemC : st.containsObj oa with
    | false =>
        unfold Entities.get_candidates at hca; rw [hmemC] at hca
        exact Except.noConfusion hca
    | true =>
        unfold Entities.get_candidates at hca; rw [hmemC] at hca
        simp only [Bool.not_true, Bool.false_eq_true, if_false] at hca
        injection hca with hca
        rw [← hca] at hmem
        have := (List.mem_filter.mp hmem).2
        rw [Bool.and_eq_true] at this
        have hma := this.2
        rw [hoa, hob, hD, hab] at hma
        exact absurd hma (by simp)
  · intro hmem
    cases hmemC : st.containsObj ob with
    | false =>
        unfold Entities.get_candidates at hcb; rw [hmemC] at hcb
        exact Except.noConfusion hcb
    | true =>
        unfold Entities.get_candidates at hcb; rw [hmemC] at hcb
        simp only [Bool.not_true, Bool.false_eq_true, if_false] at hcb
        injection hcb with hcb
        rw [← hcb] at hmem
        have := (List.mem_filter.mp hmem).2
        rw [Bool.and_eq_true] at this
        have hma := this.2
        rw [hob, hoa, hD, hba] at hma
        exact absurd hma (by simp)
  · exact merge_allowed_eq_false_of_pair _ _ _ x y
      ((mem_idSet_append a c x).mpr (Or.inl hx)) hy hpair
  · exact merge_allowed_eq_false_of_pair _ _ _ y x hy
      ((mem_idSet_append a c x).mpr (Or.inl hx)) hpair'
  · exact merge_allowed_eq_false_of_pair _ _ _ x y hx
      ((mem_idSet_append b c y).mpr (Or.inl hy)) hpair
  · exact merge_allowed_eq_false_of_pair _ _ _ y x
      ((mem_idSet_append b c y).mpr (Or.inl hy)) hx hpair'

/-- Witness for the C3 theorem at the concrete collection `stW3`. -/
theorem mark_disjoint_blocks_merges_witness :
    mark_disjoint [] [mW1] [mW2] = .ok ([] ++ crossPairs [mW1] [mW2]) ∧
    merge_allowed ([] ++ crossPairs [mW1] [mW2]) [mW1] [mW2] = false ∧
    merge_allowed ([] ++ crossPairs [mW1] [mW2]) [mW2] [mW1] = false ∧
    (0 : Nat) ∉ ([] : List Nat) ∧ (1 : Nat) ∉ ([] : List Nat) ∧
    merge_allowed ([] ++ crossPairs [mW1] [mW2]) ([mW1] ++ [mW3]) [mW2] = false ∧
    merge_allowed ([] ++ crossPairs [mW1] [mW2]) [mW2] ([mW1] ++ [mW3]) = false ∧
    merge_allowed ([] ++ crossPairs [mW1] [mW2]) [mW1] ([mW2] ++ [mW3]) = false ∧
    merge_allowed ([] ++ crossPairs [mW1] [mW2]) ([mW2] ++ [mW3]) [mW1] = false :=
  mark_disjoint_blocks_merges [mW1] [mW2] [mW3] [] stW3 1 0 none none [] []
    (by decide) (by decide) (by decide) (by decide) (by decide) (by decide)
    (by decide) (by decide)

/-- Object-membership characterisation of
`disjointness_constraints_satisfied`. -/
theorem constraints_sat_iff (st : Entities) :
    st.disjointness_constraints_satisfied = true ↔
    ∀ o : Nat, st.containsObj o = true →
      entityOk st.disjoint (st.obj o) = true := by
  unfold Entities.disjointness_constraints_satisfied Entities.containsObj
  rw [List.all_eq_true]
  constructor
  · intro h o ho
    have hmem : some o ∈ st.position := List.elem_iff.mp ho
    simpa using h (some o) hmem
  · intro h s hs
    cases s with
    | none => simp
    | some o => simpa using h o (List.elem_iff.mpr hs)

/-- The disjointness set after appending is the union of the pair
tests. -/
theorem pairMem_append (d1 d2 : List (Nat × Nat)) (x y : Nat) :
    pairMem (d1 ++ d2) x y = (pairMem d1 x y || pairMem d2 x y) := by
  simp [pairMem, List.any_append]

/-- A pair found among the cross pairs of two entities comes from one
id of each, in one of the two orders. -/
theorem pairMem_crossPairs_cases (a b : Entity) (x y : Nat)
    (h : pairMem (crossPairs a b) x y = true) :
    (x ∈ idSet a ∧ y ∈ idSet b) ∨ (y ∈ idSet a ∧ x ∈ idSet b) := by
  unfold pairMem at h
  rw [List.any_eq_true] at h
  obtain ⟨⟨u, v⟩, hmem, hcond⟩ := h
  unfold crossPairs at hmem
  rw [List.mem_flatMap] at hmem
  obtain ⟨u2, hu2, hv⟩ := hmem
  rw [List.mem_map] at hv
  obtain ⟨v2, hv2, heq⟩ := hv
  injection heq with he1 he2
  subst he1
  subst he2
  rw [Bool.or_eq_true] at hcond
  rcases hcond with hc | hc <;>
    rw [Bool.and_eq_true] at hc <;>
    obtain ⟨hc1, hc2⟩ := hc <;>
    rw [beq_iff_eq] at hc1 hc2
  · subst hc1
    subst hc2
    exact Or.inl ⟨hu2, hv2⟩
  · subst hc1
    subst hc2
    exact Or.inr ⟨hu2, hv2⟩

/-- Membership characterisation of the mention-id uniqueness
invariant. -/
theorem pairwise_id_disjoint_iff (st : Entities) :
    st.pairwise_id_disjoint = true ↔
    ∀ p q : Nat, st.containsObj p = true → st.containsObj q = true →
      p ≠ q → ∀ i, i ∈ idSet (st.obj p) → i ∉ idSet (st.obj q) := by
  unfold Entities.pairwise_id_disjoint Entities.containsObj
  constructor
  · intro h p q hp hq hne i hip
    have hp2 : p ∈ st.position.filterMap id :=
      List.mem_filterMap.mpr ⟨some p, List.elem_iff.mp hp, rfl⟩
    have hq2 : q ∈ st.position.filterMap id :=
      List.mem_filterMap.mpr ⟨some q, List.elem_iff.mp hq, rfl⟩
    have h1 := List.all_eq_true.mp (List.all_eq_true.mp h p hp2) q hq2
    rw [Bool.or_eq_true] at h1
    rcases h1 with h2 | h2
    · exact absurd (by simpa using h2) hne
    · have h3 := List.all_eq_true.mp h2 i hip
      rwa [decide_eq_true_eq] at h3
  · intro h
    rw [List.all_eq_true]
    intro p hp2
    rw [List.all_eq_true]
    intro q hq2
    obtain ⟨sp, hsp, hspe⟩ := List.mem_filterMap.mp hp2
    obtain ⟨sq, hsq, hsqe⟩ := List.mem_filterMap.mp hq2
    simp only [id] at hspe hsqe
    subst hspe
    subst hsqe
    rw [Bool.or_eq_true]
    by_cases hpq : p = q
    · exact Or.inl (by simpa using hpq)
    · refine Or.inr ?_
      rw [List.all_eq_true]
      intro i hip
      rw [decide_eq_true_eq]
      exact h p q (List.elem_iff.mpr hsp) (List.elem_iff.mpr hsq) hpq i hip

/-- The literal `Entities.merge` never produces a state: the attribute
lookup `entity_to_keep.merge` fails for member arguments and the
membership check fails for the rest. -/
theorem entities_merge_never_ok (st : Entities) (k o : Nat)
    (st2 : Entities) : ¬(Entities.merge st k o = .ok st2) := by
  unfold Entities.merge
  split
  · exact fun h => Except.noConfusion h
  · exact fun h => Except.noConfusion h

/-- A successful `mark_disjoint` of a member entity with an arbitrary
entity preserves the disjointness invariant, given the mention-id
uniqueness invariant: a newly forbidden pair joins one id of the
member entity with one id of the other entity, and no collection
entity contains both (ids are not shared between distinct entities,
and the marked pair of entities shares no id, or the call would have
raised). -/
theorem mark_preserves_constraints (st : Entities) (o : Nat)
    (other : Entity) (d : List (Nat × Nat))
    (ho : st.containsObj o = true)
    (hids : st.pairwise_id_disjoint = true)
    (hsat : st.disjointness_constraints_satisfied = true)
    (hmark : mark_disjoint st.disjoint (st.obj o) other = .ok d) :
    Entities.disjointness_constraints_satisfied
      { st with disjoint := d } = true := by
  simp only [mark_disjoint] at hmark
  split at hmark
  · rename_i hempty
    injection hmark with hd
    have hnone : ∀ i ∈ idSet (st.obj o), i ∉ idSet other := by
      intro i hi hmem
      have hfil : (idSet (st.obj o)).filter
          (fun i => (idSet other).contains i) = [] :=
        List.isEmpty_iff.mp hempty
      rw [List.filter_eq_nil_iff] at hfil
      exact hfil i hi (List.elem_iff.mpr hmem)
    have hsatAt := (constraints_sat_iff st).mp hsat
    have hdisjAt := (pairwise_id_disjoint_iff st).mp hids
    rw [constraints_sat_iff]
    intro p hp
    have hp2 : st.containsObj p = true := hp
    have hpOk := hsatAt p hp2
    rw [entityOk_eq_true_iff] at hpOk ⊢
    intro x hx y hy
    have hx2 : x ∈ idSet (st.obj p) := hx
    have hy2 : y ∈ idSet (st.obj p) := hy
    show pairMem d x y = false
    rw [← hd, pairMem_append]
    have h1 : pairMem st.disjoint x y = false := hpOk x hx2 y hy2
    have h2 : pairMem (crossPairs (st.obj o) other) x y = false := by
      cases hc : pairMem (crossPairs (st.obj o) other) x y with
      | false => rfl
      | true =>
          exfalso
          rcases pairMem_crossPairs_cases _ _ _ _ hc with ⟨hxo, hyT⟩ | ⟨hyo, hxT⟩
          · by_cases hpo : p = o
            · subst hpo
              exact hnone y hy2 hyT
            · exact (hdisjAt p o hp2 ho hpo x hx2) hxo
          · by_cases hpo : p = o
            · subst hpo
              exact hnone x hx2 hxT
            · exact (hdisjAt p o hp2 ho hpo y hy2) hyo
    rw [h1, h2]
    rfl
  · exact Except.noConfusion hmark

/-- C2.  In every state of the collection reachable by running the
sieve pipeline through `SieveRunner.run` — i.e. through any sequence
of the runner's elementary mutations `RunnerStep` — starting from a
collection that satisfies the disjointness constraints and the data
model's mention-id uniqueness invariant (which
`Entities.from_mentions`, the pipeline's construction, establishes),
no entity in the collection contains two mentions whose unordered id
pair is in the disjointness set.  The runner never performs a merge
that would violate a constraint: its `mark_disjoint` steps preserve
the invariant, and its merge step — the literal `Entities.merge` —
never completes at all (`entity_to_keep.merge(other)` raises
`AttributeError`, see the C1 theorem), so no merge, allowed or not,
ever produces a state. -/
theorem runner_reachable_states_satisfy_constraints
    (st st2 : Entities)
    (hids : st.pairwise_id_disjoint = true)
    (hsat : st.disjointness_constraints_satisfied = true)
    (hreach : Relation.ReflTransGen RunnerStep st st2) :
    st2.disjointness_constraints_satisfied = true := by
  have main : st2.disjointness_constraints_satisfied = true ∧
      st2.pairwise_id_disjoint = true := by
    induction hreach with
    | refl => exact ⟨hsat, hids⟩
    | tail _hr hstep ih =>
        obtain ⟨ihsat, ihids⟩ := ih
        cases hstep with
        | mark o other d ho hmark =>
            exact ⟨mark_preserves_constraints _ o other d ho ihids
              ihsat hmark, ihids⟩
        | merge stN k o hmerge =>
            exact absurd hmerge (entities_merge_never_ok _ _ _ _)
  exact main.1

/-- Witness for the C2 theorem: one `mark_disjoint` step of the runner
on `stRun` (marking the first entity disjoint from the value of the
second), after which the constraints still hold. -/
theorem runner_reachable_states_satisfy_constraints_witness :
    Entities.disjointness_constraints_satisfied
      { stRun with disjoint := [] ++ crossPairs [mW1] [mW2] } = true :=
  runner_reachable_states_satisfy_constraints stRun
    { stRun with disjoint := [] ++ crossPairs [mW1] [mW2] }
    (by decide) (by decide)
    (Relation.ReflTransGen.single
      (RunnerStep.mark stRun 0 [mW2] ([] ++ crossPairs [mW1] [mW2])
        (by decide) (by decide)))

end Coref
